import Mathlib

/-!
Shallow embedding of the MySQL toolkit core of this repository
(`src/agents/common/toolkits/mysql/connection.py` and
`src/agents/common/toolkits/mysql/tools.py`), together with theorems
settling the specification claims about it.

Modelling conventions:
* Python `time.time()` values are modelled as integers (`Int`); only
  differences and comparisons of timestamps matter to the code.
* A live driver connection is modelled as a `Conn` record carrying an
  identity and its `open` flag (`isOpen`, since `open` is a Lean keyword).
* Exceptions are modelled with `Except` or dedicated result inductives;
  a Python function that can raise returns such a result.
* Side effects that the claims talk about (commit, rollback, sleeps,
  invalidation, cursor close) are recorded as explicit event lists.
* Python `str(row)` serialization of a result row (a dict) is modelled by
  an explicit serialization function passed to the polymorphic
  result-size bounder, exactly as Python duck-types it.
-/

/-- A live MySQL session handle: an identity plus the driver's
`open` flag (`connection.open` in the source). -/
structure Conn where
  connId : Nat
  isOpen : Bool
  deriving DecidableEq, Repr

/-- The thread-local state kept by `MySQLConnectionManager`:
`self._local.connection` and `self._local.last_connection_time`. -/
structure LocalState where
  connection : Option Conn
  last_connection_time : Int
  deriving DecidableEq, Repr

/-- `self.max_connection_age = 3600` (one hour) from
`MySQLConnectionManager.__init__`. -/
def max_connection_age : Int := 3600

/-- The staleness test of `_get_connection`: the cached connection is
unusable when it is `None`, not `open`, or older than
`max_connection_age` (`current_time - last_connection_time > 3600`). -/
def connStale (oc : Option Conn) (last current : Int) : Bool :=
  match oc with
  | none => true
  | some c => !c.isOpen || decide (current - last > max_connection_age)

/-- `MySQLConnectionManager._get_connection`, seen from a single calling
thread.  `fresh` stands for the connection `_create_connection` would
return on this call.  The double-checked locking of the source re-reads
the same thread-local fields inside the lock, so in this per-thread view
the inner check repeats the outer one verbatim. -/
def _get_connection (st : LocalState) (current_time : Int) (fresh : Conn) :
    Conn × LocalState :=
  if connStale st.connection st.last_connection_time current_time then
    -- with self._lock: double-check inside lock (same thread-local reads)
    if connStale st.connection st.last_connection_time current_time then
      (fresh, ⟨some fresh, current_time⟩)
    else
      (st.connection.getD fresh, st)
  else
    (st.connection.getD fresh, st)

/-- Python `str(result)` for a list: `"[" + ", ".join(str(row)) + "]"`,
with `pyStr` the serialization of one row. -/
def pyListStr {α : Type} (pyStr : α → String) (result : List α) : String :=
  "[" ++ String.intercalate ", " (result.map pyStr) ++ "]"

/-- The accumulation loop of `limit_result_size`: walk rows in order,
keep a row while `current_chars + len(str(row))` stays within
`max_chars`, and break (dropping the rest) at the first row that would
push the running total past the budget. -/
def limitLoop {α : Type} (pyStr : α → String) (max_chars : Nat) :
    List α → Nat → List α
  | [], _ => []
  | row :: rest, current_chars =>
    let row_str := pyStr row
    if current_chars + row_str.length > max_chars then []
    else row :: limitLoop pyStr max_chars rest (current_chars + row_str.length)

/-- `limit_result_size(result, max_chars)` from `connection.py`: empty
input is returned as is; a list whose full serialization fits the budget
is returned unchanged; otherwise the accumulation loop decides the kept
prefix. -/
def limit_result_size {α : Type} (pyStr : α → String) (result : List α)
    (max_chars : Nat) : List α :=
  if result.isEmpty then result
  else if (pyListStr pyStr result).length > max_chars then
    limitLoop pyStr max_chars result 0
  else result

/-- Sum of the serialized lengths of the rows of a list (the quantity the
accumulation loop of `limit_result_size` tracks). -/
def rowLenSum {α : Type} (pyStr : α → String) (l : List α) : Nat :=
  (l.map (fun r => (pyStr r).length)).sum

/-- Outcome of one `pymysql.connect` attempt inside `_create_connection`:
success, a driver-level `MySQLError`, or any other exception. -/
inductive AttemptOutcome where
  | success (c : Conn)
  | mysqlError (msg : String)
  | otherError (msg : String)
  deriving DecidableEq, Repr

/-- Result of `_create_connection`: a connection, the wrapping
`ConnectionError` it raises after the final failed attempt, or an
exception that escaped the `except MySQLError` clause unhandled. -/
inductive CreateResult where
  | ok (c : Conn)
  | connectionError (msg : String)
  | uncaught (msg : String)
  deriving DecidableEq, Repr

/-- `max_retries = 3` in `_create_connection`. -/
def max_retries : Nat := 3

/-- The `for attempt in range(max_retries)` loop of `_create_connection`.
`attempt` is the current index, `remaining` the number of iterations
left; alongside the result it records the argument of every
`time.sleep(2 ** attempt)` executed between attempts. -/
def createAttemptsFrom (outcome : Nat → AttemptOutcome) :
    Nat → Nat → CreateResult × List Nat
  | _, 0 => (.connectionError "exhausted", [])
  | attempt, remaining + 1 =>
    match outcome attempt with
    | .success c => (.ok c, [])
    | .otherError m => (.uncaught m, [])
    | .mysqlError m =>
      if remaining = 0 then
        (.connectionError ("MySQL connection failed: " ++ m), [])
      else
        let r := createAttemptsFrom outcome (attempt + 1) remaining
        (r.1, 2 ^ attempt :: r.2)

/-- `MySQLConnectionManager._create_connection`, parametrized by the
outcome of each connect attempt.  Returns the result together with the
list of back-off sleep durations performed. -/
def _create_connection (outcome : Nat → AttemptOutcome) :
    CreateResult × List Nat :=
  createAttemptsFrom outcome 0 max_retries

/-- Python substring containment `pat in s`, via list infixes on the
underlying character data. -/
def strContains (s pat : String) : Bool :=
  decide (pat.data <:+: s.data)

/-- The connection-fault text test in `get_cursor`'s `except` clause:
`"MySQL" in str(e) or "connection" in str(e).lower()`. -/
def connErrorText (e : String) : Bool :=
  strContains e "MySQL" || strContains e.toLower "connection"

/-- Observable events of one `get_cursor` scope. -/
inductive CursorEv where
  | commit
  | rollback
  | invalidate
  | cursorClose
  deriving DecidableEq, Repr

/-- The `try/except/finally` block of `get_cursor` (after a cursor was
acquired), seen from the caller's scope.  `bodyResult` is the outcome of
the `yield`ed body; `commitFails`/`commitErr` model `connection.commit()`
raising; `rollbackFails` and `closeFails` model `connection.rollback()`
and `cursor.close()` raising — both are swallowed by the source, so they
change neither the result nor which events are recorded as calls. -/
def get_cursor_scope (bodyResult : Except String Unit)
    (commitFails : Bool) (commitErr : String)
    (rollbackFails closeFails : Bool) :
    Except String Unit × List CursorEv :=
  match bodyResult with
  | .ok _ =>
    if commitFails then
      (.error commitErr,
        [CursorEv.commit, CursorEv.rollback]
          ++ (if connErrorText commitErr then [CursorEv.invalidate] else [])
          ++ [CursorEv.cursorClose])
    else
      (.ok (), [CursorEv.commit, CursorEv.cursorClose])
  | .error e =>
    (.error e,
      [CursorEv.rollback]
        ++ (if connErrorText e then [CursorEv.invalidate] else [])
        ++ [CursorEv.cursorClose])

/-- A result row: a Python dict from column name to a string value, in
key order.  (The toolkit's cursors use `DictCursor`, so every fetched
row is such a dict.) -/
def Row : Type := List (String × String)

instance : DecidableEq Row :=
  inferInstanceAs (DecidableEq (List (String × String)))

instance : Repr Row :=
  inferInstanceAs (Repr (List (String × String)))

/-- Python `str(row)` for a string-valued dict row:
`{'k1': 'v1', 'k2': 'v2'}`. -/
def pyRowStr (r : Row) : String :=
  "\x7b" ++
    String.intercalate ", "
      (r.map (fun p => "\x27" ++ p.1 ++ "\x27: \x27" ++ p.2 ++ "\x27"))
    ++ "\x7d"

/-- The message of the `QueryTimeoutError` raised by
`execute_query_with_timeout`: `f"Query timeout after {timeout} seconds"`. -/
def queryTimeoutMessage (timeout : Nat) : String :=
  "Query timeout after " ++ toString timeout ++ " seconds"

/-- Result of `execute_query_with_timeout` toward its caller. -/
inductive ExecResult where
  | rows (rs : List Row)
  | queryTimeout (msg : String)
  | execError (msg : String)
  deriving DecidableEq, Repr

/-- `execute_query_with_timeout`: the caller blocks on
`future.result(timeout=timeout)`.  `workerDone` says whether the worker
produced its outcome within the deadline; if not, the wait raises
`concurrent.futures.TimeoutError`, the future is cancelled best-effort,
and `QueryTimeoutError(queryTimeoutMessage timeout)` is raised. -/
def execute_query_with_timeout (workerDone : Bool)
    (workerResult : Except String (List Row)) (timeout : Nat) : ExecResult :=
  if workerDone then
    match workerResult with
    | .ok rs => .rows rs
    | .error m => .execError m
  else
    .queryTimeout (queryTimeoutMessage timeout)

/-- Observable events of the worker closure `query_worker` inside
`execute_query_with_timeout`. -/
inductive WorkerEv where
  | getConn
  | cursorAcquire
  | execute
  | fetchall
  | cursorClose
  | invalidate
  deriving DecidableEq, Repr

/-- The worker closure `query_worker`: obtain a connection from the
manager, open a cursor, `execute` the statement, `fetchall`, and in the
`finally` block close the cursor (errors swallowed, `closeFails`) and
invalidate the connection through the manager.  `execOutcome` is the
outcome of `cursor.execute`, `fetchOutcome` that of `cursor.fetchall`. -/
def query_worker (execOutcome : Except String Unit)
    (fetchOutcome : Except String (List Row)) (closeFails : Bool) :
    Except String (List Row) × List WorkerEv :=
  match execOutcome with
  | .error m =>
    (.error m,
      [WorkerEv.getConn, WorkerEv.cursorAcquire, WorkerEv.execute,
        WorkerEv.cursorClose, WorkerEv.invalidate])
  | .ok _ =>
    match fetchOutcome with
    | .ok rs =>
      (.ok rs,
        [WorkerEv.getConn, WorkerEv.cursorAcquire, WorkerEv.execute,
          WorkerEv.fetchall, WorkerEv.cursorClose, WorkerEv.invalidate])
    | .error m =>
      (.error m,
        [WorkerEv.getConn, WorkerEv.cursorAcquire, WorkerEv.execute,
          WorkerEv.fetchall, WorkerEv.cursorClose, WorkerEv.invalidate])

/-- Python dict lookup `row.get(col, "")` for a row. -/
def rowGet (row : Row) (col : String) : String :=
  match row.find? (fun p => p.1 == col) with
  | some p => p.2
  | none => ""

/-- Python format padding `f"{s:<{w}}"`: left-justify to width `w` with
spaces, never truncating. -/
def padRight (s : String) (w : Nat) : String :=
  s ++ String.mk (List.replicate (w - s.length) ' ')

/-- The column width computed in `mysql_query`:
`min(max(len(col), max(len(str(row.get(col, ""))) for row in limited)), 50)`. -/
def colWidth (limited : List Row) (col : String) : Nat :=
  min (max col.length ((limited.map (fun row => (rowGet row col).length)).foldr max 0)) 50

/-- The truncation warning `mysql_query` appends when
`len(limited_result) < len(result)`. -/
def truncationWarning (shown total : Nat) : String :=
  "\n\n⚠️ 警告: 查询结果过大，只显示了前 " ++ toString shown ++ " 行（共 "
    ++ toString total ++ " 行）。\n"
    ++ "建议使用更精确的查询条件或使用LIMIT子句来减少返回的数据量。"

/-- The success-path formatting of `mysql_query` (lines after the
timeout-guarded execution): bound the result with `limit_result_size`,
compute the truncation warning, and render a Markdown-style table of at
most 50 displayed rows. -/
def formatQueryResult (result : List Row) : String :=
  let limited := limit_result_size pyRowStr result 10000
  let warning :=
    if limited.length < result.length then
      truncationWarning limited.length result.length
    else ""
  match limited with
  | [] => "查询执行成功，但返回数据为空"
  | first :: _ =>
    let columns := first.map Prod.fst
    let w := fun c => colWidth limited c
    let header :=
      "| " ++ String.intercalate " | " (columns.map (fun c => padRight c (w c))) ++ " |"
    let separator :=
      "|" ++ String.intercalate "|"
        (columns.map (fun c => String.mk (List.replicate (w c + 2) '-'))) ++ "|"
    let rowLines := limited.map (fun row =>
      "| " ++ String.intercalate " | "
        (columns.map (fun c => padRight (rowGet row c) (w c))) ++ " |")
    let base :=
      "查询结果（共 " ++ toString limited.length ++ " 行）:\n\n"
        ++ header ++ "\n" ++ separator ++ "\n"
        ++ String.intercalate "\n" (rowLines.take 50)
    let base :=
      if rowLines.length > 50 then
        base ++ "\n\n... 还有 " ++ toString (rowLines.length - 50) ++ " 行未显示 ..."
      else base
    base ++ warning

/-- The situational hint `mysql_query`'s outer handler appends to the
failure text, chosen by substring tests on the lowered error text. -/
def sqlErrorHint (e : String) : String :=
  let le := e.toLower
  if strContains le "timeout" then
    "\n\n💡 建议：查询超时了，请尝试以下方法：\n"
      ++ "1. 减少查询的数据量（使用WHERE条件过滤）\n"
      ++ "2. 使用LIMIT子句限制返回行数\n"
      ++ "3. 增加timeout参数值（最大600秒）"
  else if strContains le "table" && strContains le "doesn\x27t exist" then
    "\n\n💡 建议：表不存在，请使用 mysql_list_tables 查看可用的表名"
  else if strContains le "column" && strContains le "doesn\x27t exist" then
    "\n\n💡 建议：列不存在，请使用 mysql_describe_table 查看表结构"
  else if strContains le "not enough arguments for format string" then
    "\n\n💡 建议：SQL 中的百分号 (%) 被当作参数占位符使用。"
      ++ " 如需匹配包含百分号的文本，请将百分号写成双百分号 (%%) 或使用参数化查询。"
  else ""

/-- The text `mysql_query`'s outer `except` handler returns:
`f"SQL查询执行失败: {str(e)}\n\n{sql}"` plus the situational hint. -/
def sqlErrorText (sql e : String) : String :=
  "SQL查询执行失败: " ++ e ++ "\n\n" ++ sql ++ sqlErrorHint e

/-- Python `timeout or 60` on an `int | None` argument (both `None` and
`0` are falsy). -/
def effectiveTimeout (timeout : Option Nat) : Nat :=
  match timeout with
  | none => 60
  | some 0 => 60
  | some n => n

/-- Connection-manager side effect observable from `mysql_query`:
the call `conn_manager.invalidate_connection()`. -/
inductive QueryEv where
  | invalidate
  deriving DecidableEq, Repr

/-- Outcome of the `execute_query_with_timeout` call inside
`mysql_query`: fetched rows, a `QueryTimeoutError`, or any other
execution exception with its text. -/
inductive QueryOutcome where
  | rows (rs : List Row)
  | timeout
  | execError (msg : String)
  deriving DecidableEq, Repr

/-- The tool `mysql_query` from `tools.py`.  `sqlValid` and
`timeoutValid` are the verdicts of the external SQL-safety validator
(`MySQLSecurityChecker.validate_sql` / `validate_timeout`), consulted as
boolean predicates; `outcome` is the outcome of the guarded execution.
Every path returns a text payload — the outer `try/except` converts any
raised exception into `sqlErrorText` — and the returned event list
records whether `invalidate_connection` was called on the manager. -/
def mysql_query (sqlValid timeoutValid : Bool) (sql : String)
    (timeout : Option Nat) (outcome : QueryOutcome) : String × List QueryEv :=
  if !sqlValid then
    ("SQL语句包含不安全的操作或可能的注入攻击，请检查SQL语句", [])
  else if !timeoutValid then
    ("timeout参数必须在1-600之间", [])
  else
    match outcome with
    | .timeout =>
      -- QueryTimeoutError is logged and re-raised without invalidation,
      -- then caught by the outer handler
      (sqlErrorText sql (queryTimeoutMessage (effectiveTimeout timeout)), [])
    | .execError m =>
      -- any other exception: invalidate the cached connection, re-raise,
      -- outer handler formats the text
      (sqlErrorText sql m, [QueryEv.invalidate])
    | .rows rs =>
      if rs.isEmpty then ("查询执行成功，但没有返回任何结果", [])
      else (formatQueryResult rs, [])

/-- The configuration record `get_connection_manager` builds from the
environment. -/
structure MySQLConfig where
  host : String
  user : String
  password : String
  database : String
  port : Int
  charset : String
  description : String
  deriving DecidableEq, Repr

/-- Result of `get_connection_manager`: a configured manager, the
`MySQLConnectionError` raised for a missing required key, or the
`ValueError` raised by `int()` on a non-numeric `MYSQL_PORT`. -/
inductive ConfigResult where
  | ok (cfg : MySQLConfig)
  | connError (msg : String)
  | valueError (msg : String)
  deriving DecidableEq, Repr

/-- Python `os.getenv(key) or dflt`: an unset variable (`None`) and the
empty string are both falsy and replaced by the default. -/
def pyGetenvOr (env : String → Option String) (key dflt : String) : String :=
  match env key with
  | none => dflt
  | some "" => dflt
  | some v => v

/-- Python `int(s)` on a decimal string: an optional leading minus sign
followed by at least one digit (whitespace handling omitted — the values
involved here are plain digit strings).  `none` is the raised
`ValueError`. -/
def pyIntParse (s : String) : Option Int :=
  let parseDigits : List Char → Option Nat := fun cs =>
    if cs = [] then none
    else
      cs.foldl
        (fun acc? c => acc?.bind
          (fun acc => if c.isDigit then some (acc * 10 + (c.toNat - 48)) else none))
        (some 0)
  match s.data with
  | '-' :: rest => (parseDigits rest).map (fun n => -(n : Int))
  | l => (parseDigits l).map (fun n => (n : Int))

/-- The required-key test `if not mysql_config[key]` of
`get_connection_manager`: the value is missing when the variable is
unset (`None`) or the empty string. -/
def envMissing (env : String → Option String) (key : String) : Bool :=
  match env key with
  | none => true
  | some "" => true
  | some _ => false

/-- The `MySQLConnectionError` message of `get_connection_manager` for a
missing required key. -/
def missingKeyMsg (key : String) : String :=
  "MySQL configuration missing required key: " ++ key
    ++ ", please check your environment variables."

/-- `get_connection_manager` from `tools.py` on first call
(`_connection_manager is None`), parametrized by the environment.  The
config dict is built first — so `int(os.getenv("MYSQL_PORT") or "3306")`
runs before any required-key check — and then the four keys of
`required_keys = ["host", "user", "password", "database"]` are checked
in order; `port` is not among them.  The manager constructor only stores
the config: no connection attempt is made here. -/
def get_connection_manager (env : String → Option String) : ConfigResult :=
  let portStr := pyGetenvOr env "MYSQL_PORT" "3306"
  match pyIntParse portStr with
  | none => .valueError ("invalid literal for int() with base 10: " ++ portStr)
  | some port =>
    if envMissing env "MYSQL_HOST" then .connError (missingKeyMsg "host")
    else if envMissing env "MYSQL_USER" then .connError (missingKeyMsg "user")
    else if envMissing env "MYSQL_PASSWORD" then .connError (missingKeyMsg "password")
    else if envMissing env "MYSQL_DATABASE" then .connError (missingKeyMsg "database")
    else
      .ok
        ⟨(env "MYSQL_HOST").getD "", (env "MYSQL_USER").getD "",
          (env "MYSQL_PASSWORD").getD "", (env "MYSQL_DATABASE").getD "",
          port, "utf8mb4",
          pyGetenvOr env "MYSQL_DATABASE_DESCRIPTION" "默认 MySQL 数据库"⟩

theorem string_data_append (s t : String) : (s ++ t).data = s.data ++ t.data := by
  cases s; cases t; rfl

theorem rowLenSum_cons {α : Type} (pyStr : α → String) (r : α) (l : List α) :
    rowLenSum pyStr (r :: l) = (pyStr r).length + rowLenSum pyStr l := by
  simp [rowLenSum]

/-- Characterization of the accumulation loop of `limit_result_size`: it
returns a `take`-prefix whose accumulated row lengths stay within the
budget, and the prefix stops either at the end of the list or right
before the first row that would overflow the budget. -/
theorem limitLoop_eq_take {α : Type} (pyStr : α → String) (mc : Nat) (l : List α) :
    ∀ cur : Nat, ∃ k, k ≤ l.length ∧
      limitLoop pyStr mc l cur = l.take k ∧
      (k = 0 ∨ cur + rowLenSum pyStr (l.take k) ≤ mc) ∧
      (k = l.length ∨ cur + rowLenSum pyStr (l.take (k + 1)) > mc) := by
  induction l with
  | nil =>
    intro cur
    exact ⟨0, Nat.le_refl 0, rfl, Or.inl rfl, Or.inl rfl⟩
  | cons row rest ih =>
    intro cur
    by_cases h : cur + (pyStr row).length > mc
    · refine ⟨0, Nat.zero_le _, ?_, Or.inl rfl, Or.inr ?_⟩
      · simp [limitLoop, h]
      · simpa [rowLenSum_cons, rowLenSum] using h
    · obtain ⟨k, hk, heq, hle, hmax⟩ := ih (cur + (pyStr row).length)
      refine ⟨k + 1, Nat.succ_le_succ hk, ?_, Or.inr ?_, ?_⟩
      · simpa [limitLoop, h] using heq
      · rcases hle with h0 | hle
        · subst h0
          simpa [rowLenSum_cons, rowLenSum] using Nat.le_of_not_lt h
        · simpa [rowLenSum_cons, Nat.add_assoc] using hle
      · rcases hmax with h0 | hmax
        · exact Or.inl (by simp [h0])
        · exact Or.inr (by simpa [rowLenSum_cons, Nat.add_assoc] using hmax)

/-- C1: for every calling thread, `_get_connection` returns the cached
handle exactly when it exists, reports open, and is at most
`max_connection_age = 3600` seconds old; a handle that is stale (closed,
absent, or over-age) is never reused — a fresh connection is created and
cached instead — and when the age threshold was exceeded the refreshed
cache entry carries a strictly newer creation timestamp. -/
theorem get_connection_cache_policy (st : LocalState) (t : Int) (fresh : Conn) :
    (∀ c, st.connection = some c → c.isOpen = true →
        t - st.last_connection_time ≤ max_connection_age →
        _get_connection st t fresh = (c, st)) ∧
    (connStale st.connection st.last_connection_time t = true →
        _get_connection st t fresh = (fresh, ⟨some fresh, t⟩)) ∧
    (t - st.last_connection_time > max_connection_age →
        (_get_connection st t fresh).1 = fresh ∧
        (_get_connection st t fresh).2.last_connection_time = t ∧
        (_get_connection st t fresh).2.last_connection_time
          > st.last_connection_time) := by
  refine ⟨?_, ?_, ?_⟩
  · intro c hc hopen hage
    have hstale : connStale (some c) st.last_connection_time t = false := by
      simp only [connStale, hopen, Bool.not_true, Bool.false_or,
        decide_eq_false_iff_not]
      omega
    simp [_get_connection, hc, hstale]
  · intro h
    simp [_get_connection, h]
  · intro h
    have hstale : connStale st.connection st.last_connection_time t = true := by
      cases hc : st.connection with
      | none => rfl
      | some c =>
        simp only [connStale, Bool.or_eq_true, decide_eq_true_eq]
        exact Or.inr h
    have h' : t - st.last_connection_time > (3600 : Int) := by
      simpa [max_connection_age] using h
    refine ⟨?_, ?_, ?_⟩ <;> simp [_get_connection, hstale]
    omega

/-- Witness for `get_connection_cache_policy` at a concrete over-age
cache entry. -/
theorem get_connection_cache_policy_witness :
    _get_connection ⟨some ⟨1, true⟩, 0⟩ 4000 ⟨2, true⟩
      = (⟨2, true⟩, ⟨some ⟨2, true⟩, 4000⟩) ∧
    (_get_connection ⟨some ⟨1, true⟩, 0⟩ 4000 ⟨2, true⟩).2.last_connection_time
      > 0 := by
  refine ⟨?_, ?_⟩
  · exact (get_connection_cache_policy ⟨some ⟨1, true⟩, 0⟩ 4000 ⟨2, true⟩).2.1
      (by decide)
  · exact ((get_connection_cache_policy ⟨some ⟨1, true⟩, 0⟩ 4000 ⟨2, true⟩).2.2
      (by decide)).2.2

/-- C7: a result list whose full serialization is at most the character
budget is returned unchanged by `limit_result_size`. -/
theorem limit_result_size_identity {α : Type} (pyStr : α → String)
    (result : List α) (max_chars : Nat)
    (h : (pyListStr pyStr result).length ≤ max_chars) :
    limit_result_size pyStr result max_chars = result := by
  unfold limit_result_size
  split
  · rfl
  · rw [if_neg (by omega)]

/-- Witness for `limit_result_size_identity` at a concrete small result. -/
theorem limit_result_size_identity_witness :
    limit_result_size pyRowStr [[("a", "b")]] 10000 = [[("a", "b")]] :=
  limit_result_size_identity pyRowStr [[("a", "b")]] 10000 (by decide)

/-- C2 (counterexample to the claim as stated): a two-row result whose
full serialization (24 characters, brackets and separators included)
exceeds the budget of 20, yet `limit_result_size` returns the whole list
— not a strict prefix — so `truncated_count = 0`, and the returned
serialization still exceeds the budget. -/
theorem limit_result_size_not_strict_counterexample :
    (pyListStr pyRowStr [[("a", "b")], [("c", "d")]]).length > 20 ∧
    limit_result_size pyRowStr [[("a", "b")], [("c", "d")]] 20
      = [[("a", "b")], [("c", "d")]] ∧
    (pyListStr pyRowStr
        (limit_result_size pyRowStr [[("a", "b")], [("c", "d")]] 20)).length
      > 20 := by
  refine ⟨?_, ?_, ?_⟩ <;> decide

/-- C2 (amended): for every result list whose full serialization exceeds
the budget, `limit_result_size` returns a prefix (`take k`) of the
original list — possibly empty, possibly the whole list, never raising —
kept by accumulating each row's serialized length and dropping the first
row that would push the running row total past the budget together with
all following rows; the sum of the serialized lengths of the returned
rows is at most the budget.  The prefix need not be strict and
`truncated_count` may be `0`, because bracket and separator characters
count toward the trigger but not toward the accumulated row total. -/
theorem limit_result_size_truncates {α : Type} (pyStr : α → String)
    (result : List α) (max_chars : Nat)
    (h : (pyListStr pyStr result).length > max_chars) :
    ∃ k, k ≤ result.length ∧
      limit_result_size pyStr result max_chars = result.take k ∧
      rowLenSum pyStr (result.take k) ≤ max_chars ∧
      (k = result.length ∨
        rowLenSum pyStr (result.take (k + 1)) > max_chars) := by
  rcases eq_or_ne result [] with rfl | hne
  · exact ⟨0, Nat.le_refl 0, by simp [limit_result_size], by simp [rowLenSum],
      Or.inl rfl⟩
  · have hemp : result.isEmpty = false := by
      simpa [List.isEmpty_iff] using hne
    obtain ⟨k, hk, heq, hle, hmax⟩ := limitLoop_eq_take pyStr max_chars result 0
    refine ⟨k, hk, ?_, ?_, ?_⟩
    · rw [limit_result_size, hemp]
      simpa [h] using heq
    · rcases hle with h0 | hle
      · subst h0; simp [rowLenSum]
      · simpa using hle
    · rcases hmax with h0 | hmax
      · exact Or.inl h0
      · exact Or.inr (by simpa using hmax)

/-- Witness for `limit_result_size_truncates`: a concrete oversized
result where the loop keeps one row and drops the overflowing second
row. -/
theorem limit_result_size_truncates_witness :
    ∃ k, k ≤ ([[("a", "b")], [("col", "valuevalue")]] : List Row).length ∧
      limit_result_size pyRowStr [[("a", "b")], [("col", "valuevalue")]] 20
        = ([[("a", "b")], [("col", "valuevalue")]] : List Row).take k ∧
      rowLenSum pyRowStr (([[("a", "b")], [("col", "valuevalue")]] : List Row).take k) ≤ 20 ∧
      (k = ([[("a", "b")], [("col", "valuevalue")]] : List Row).length ∨
        rowLenSum pyRowStr
          (([[("a", "b")], [("col", "valuevalue")]] : List Row).take (k + 1)) > 20) :=
  limit_result_size_truncates pyRowStr [[("a", "b")], [("col", "valuevalue")]] 20
    (by decide)

/-- C3: within one `get_cursor` scope: a raising body leads to a
rollback call and the original exception re-raised unchanged (and no
commit); a normally-completing body leads to exactly one commit call
(and, when the commit itself does not raise, a normal return); in every
case the cursor close is the final exit action.  Rollback and cursor
close failures are swallowed: the outcome does not depend on
`rollbackFails`/`closeFails`. -/
theorem get_cursor_scope_correct (bodyResult : Except String Unit)
    (commitFails : Bool) (commitErr : String) (rollbackFails closeFails : Bool) :
    (∀ e, bodyResult = .error e →
      (get_cursor_scope bodyResult commitFails commitErr rollbackFails
          closeFails).1 = .error e ∧
      CursorEv.rollback
        ∈ (get_cursor_scope bodyResult commitFails commitErr rollbackFails
            closeFails).2 ∧
      CursorEv.commit
        ∉ (get_cursor_scope bodyResult commitFails commitErr rollbackFails
            closeFails).2) ∧
    (bodyResult = .ok () →
      (get_cursor_scope bodyResult commitFails commitErr rollbackFails
          closeFails).2.count CursorEv.commit = 1 ∧
      (commitFails = false →
        (get_cursor_scope bodyResult commitFails commitErr rollbackFails
            closeFails).1 = .ok ())) ∧
    (get_cursor_scope bodyResult commitFails commitErr rollbackFails
        closeFails).2.getLast? = some CursorEv.cursorClose ∧
    get_cursor_scope bodyResult commitFails commitErr rollbackFails closeFails
      = get_cursor_scope bodyResult commitFails commitErr false false := by
  refine ⟨?_, ?_, ?_, ?_⟩
  · intro e he
    subst he
    cases hconn : connErrorText e <;>
      simp [get_cursor_scope, hconn]
  · intro hok
    subst hok
    cases commitFails with
    | false => simp [get_cursor_scope]
    | true =>
      cases hconn : connErrorText commitErr <;>
        simp [get_cursor_scope, hconn]
  · cases bodyResult with
    | ok u =>
      cases u
      cases commitFails with
      | false => simp [get_cursor_scope]
      | true =>
        cases hconn : connErrorText commitErr <;>
          simp [get_cursor_scope, hconn]
    | error e =>
      cases hconn : connErrorText e <;> simp [get_cursor_scope, hconn]
  · rfl

/-- Witness for `get_cursor_scope_correct` at a concrete raising body
and a concrete committing body. -/
theorem get_cursor_scope_correct_witness :
    (get_cursor_scope (.error "boom") false "" true true).1 = .error "boom" ∧
    CursorEv.rollback ∈ (get_cursor_scope (.error "boom") false "" true true).2 ∧
    (get_cursor_scope (.ok ()) false "" false false).2.count CursorEv.commit
      = 1 := by
  refine ⟨?_, ?_, ?_⟩
  · exact ((get_cursor_scope_correct (.error "boom") false "" true true).1
      "boom" rfl).1
  · exact ((get_cursor_scope_correct (.error "boom") false "" true true).1
      "boom" rfl).2.1
  · exact ((get_cursor_scope_correct (.ok ()) false "" false false).2.1
      rfl).1

/-- C4 (counterexample to the claim as stated): when every connect
attempt fails with a driver error, `_create_connection` performs exactly
the back-off sleeps 1s and 2s — there are only two gaps between the
three attempts, so the claimed 4-second sleep never happens — and then
raises `ConnectionError` wrapping the driver error. -/
theorem create_connection_backoff_counterexample :
    (_create_connection (fun _ => AttemptOutcome.mysqlError "server down")).2
      = [1, 2] ∧
    (_create_connection (fun _ => AttemptOutcome.mysqlError "server down")).2
      ≠ [1, 2, 4] ∧
    (_create_connection (fun _ => AttemptOutcome.mysqlError "server down")).1
      = CreateResult.connectionError "MySQL connection failed: server down" := by
  refine ⟨?_, ?_, ?_⟩ <;> decide

/-- C4 (amended): `_create_connection` makes up to 3 connect attempts,
sleeping 1s and then 2s between consecutive attempts on driver-level
errors; after the third failed attempt it wraps the last driver error in
a `ConnectionError` and raises it, never silently swallowing it; a later
successful attempt stops the retrying. -/
theorem create_connection_retry_backoff (outcome : Nat → AttemptOutcome)
    (m0 m1 m2 : String) (c : Conn) :
    (outcome 0 = .mysqlError m0 → outcome 1 = .mysqlError m1 →
      outcome 2 = .mysqlError m2 →
      _create_connection outcome
        = (.connectionError ("MySQL connection failed: " ++ m2), [1, 2])) ∧
    (outcome 0 = .mysqlError m0 → outcome 1 = .success c →
      _create_connection outcome = (.ok c, [1])) ∧
    (outcome 0 = .success c →
      _create_connection outcome = (.ok c, [])) := by
  refine ⟨?_, ?_, ?_⟩
  · intro h0 h1 h2
    simp [_create_connection, max_retries, createAttemptsFrom, h0, h1, h2]
  · intro h0 h1
    simp [_create_connection, max_retries, createAttemptsFrom, h0, h1]
  · intro h0
    simp [_create_connection, max_retries, createAttemptsFrom, h0]

/-- Witness for `create_connection_retry_backoff` at a concrete
outcome sequence failing twice then succeeding. -/
theorem create_connection_retry_backoff_witness :
    _create_connection (fun n => if n = 0 then .mysqlError "refused"
        else AttemptOutcome.success ⟨7, true⟩)
      = (.ok ⟨7, true⟩, [1]) :=
  (create_connection_retry_backoff
    (fun n => if n = 0 then .mysqlError "refused"
      else AttemptOutcome.success ⟨7, true⟩)
    "refused" "" "" ⟨7, true⟩).2.1 (by decide) (by decide)

/-- C10: an exception that is not a driver-level `MySQLError` raised on
the first connect attempt escapes `_create_connection` immediately: no
retry, no back-off sleep, no wrapping into `ConnectionError`. -/
theorem create_connection_uncaught (outcome : Nat → AttemptOutcome)
    (m : String) (h : outcome 0 = .otherError m) :
    _create_connection outcome = (.uncaught m, []) := by
  simp [_create_connection, max_retries, createAttemptsFrom, h]

/-- Witness for `create_connection_uncaught` at a concrete non-driver
failure. -/
theorem create_connection_uncaught_witness :
    _create_connection (fun _ => AttemptOutcome.otherError "KeyError")
      = (.uncaught "KeyError", []) :=
  create_connection_uncaught (fun _ => AttemptOutcome.otherError "KeyError")
    "KeyError" rfl

/-- C5: when the worker has not produced a result by the deadline,
`execute_query_with_timeout` raises a `QueryTimeoutError` whose message
names the elapsed timeout bound — it neither returns a result nor raises
any other error. -/
theorem execute_query_with_timeout_expiry
    (workerResult : Except String (List Row)) (timeout : Nat) :
    execute_query_with_timeout false workerResult timeout
      = .queryTimeout (queryTimeoutMessage timeout) ∧
    strContains (queryTimeoutMessage timeout) (toString timeout) = true := by
  constructor
  · rfl
  · have hinf : (toString timeout).data <:+: (queryTimeoutMessage timeout).data := by
      refine ⟨"Query timeout after ".data, " seconds".data, ?_⟩
      simp [queryTimeoutMessage, string_data_append]
    simpa [strContains] using hinf

/-- C8: the worker closure of `execute_query_with_timeout` obtains its
own connection via the manager first, executes the statement, fetches
all rows on success, closes its cursor, and — unconditionally, whether
the execution succeeds or raises — invalidates the connection it used as
its very last action. -/
theorem query_worker_lifecycle (execOutcome : Except String Unit)
    (fetchOutcome : Except String (List Row)) (closeFails : Bool) :
    (query_worker execOutcome fetchOutcome closeFails).2.getLast?
      = some WorkerEv.invalidate ∧
    WorkerEv.cursorClose ∈ (query_worker execOutcome fetchOutcome closeFails).2 ∧
    (query_worker execOutcome fetchOutcome closeFails).2.head?
      = some WorkerEv.getConn ∧
    (∀ rs, execOutcome = .ok () → fetchOutcome = .ok rs →
      query_worker execOutcome fetchOutcome closeFails
        = (.ok rs,
            [WorkerEv.getConn, WorkerEv.cursorAcquire, WorkerEv.execute,
              WorkerEv.fetchall, WorkerEv.cursorClose, WorkerEv.invalidate])) := by
  refine ⟨?_, ?_, ?_, ?_⟩
  · cases execOutcome with
    | error m => rfl
    | ok u => cases fetchOutcome <;> rfl
  · cases execOutcome with
    | error m => simp [query_worker]
    | ok u => cases fetchOutcome <;> simp [query_worker]
  · cases execOutcome with
    | error m => rfl
    | ok u => cases fetchOutcome <;> rfl
  · intro rs he hf
    subst he; subst hf
    rfl

/-- Witness for `query_worker_lifecycle` at a concrete successful
execution. -/
theorem query_worker_lifecycle_witness :
    query_worker (.ok ()) (.ok ([[("a", "b")]] : List Row)) true
      = (.ok ([[("a", "b")]] : List Row),
          [WorkerEv.getConn, WorkerEv.cursorAcquire, WorkerEv.execute,
            WorkerEv.fetchall, WorkerEv.cursorClose, WorkerEv.invalidate]) :=
  (query_worker_lifecycle (.ok ()) (.ok ([[("a", "b")]] : List Row)) true).2.2.2
    [[("a", "b")]] rfl rfl

/-- C6: `mysql_query` never raises past its boundary: a validation
rejection returns the fixed rejection text with no manager side effect;
a timeout returns the failure text built from the `QueryTimeoutError`
message without invalidating the cached connection; any other execution
error first invalidates the connection manager's cached connection for
the calling thread and then returns the descriptive failure text. -/
theorem mysql_query_soft_failures (sqlValid timeoutValid : Bool)
    (sql : String) (timeout : Option Nat) (outcome : QueryOutcome) :
    (sqlValid = false →
      mysql_query sqlValid timeoutValid sql timeout outcome
        = ("SQL语句包含不安全的操作或可能的注入攻击，请检查SQL语句", [])) ∧
    (sqlValid = true → timeoutValid = false →
      mysql_query sqlValid timeoutValid sql timeout outcome
        = ("timeout参数必须在1-600之间", [])) ∧
    (∀ m, sqlValid = true → timeoutValid = true → outcome = .execError m →
      mysql_query sqlValid timeoutValid sql timeout outcome
        = (sqlErrorText sql m, [QueryEv.invalidate])) ∧
    (sqlValid = true → timeoutValid = true → outcome = .timeout →
      mysql_query sqlValid timeoutValid sql timeout outcome
        = (sqlErrorText sql (queryTimeoutMessage (effectiveTimeout timeout)),
            [])) := by
  refine ⟨?_, ?_, ?_, ?_⟩
  · intro hs; subst hs; rfl
  · intro hs ht; subst hs; subst ht; rfl
  · intro m hs ht ho; subst hs; subst ht; subst ho; rfl
  · intro hs ht ho; subst hs; subst ht; subst ho; rfl

/-- Witness for `mysql_query_soft_failures` at a concrete execution
error and a concrete timeout. -/
theorem mysql_query_soft_failures_witness :
    mysql_query true true "SELECT 1" (some 5) (.execError "Lost connection")
      = (sqlErrorText "SELECT 1" "Lost connection", [QueryEv.invalidate]) ∧
    mysql_query true true "SELECT 1" (some 5) .timeout
      = (sqlErrorText "SELECT 1" (queryTimeoutMessage 5), []) := by
  constructor
  · exact (mysql_query_soft_failures true true "SELECT 1" (some 5)
      (.execError "Lost connection")).2.2.1 "Lost connection" rfl rfl rfl
  · exact (mysql_query_soft_failures true true "SELECT 1" (some 5)
      .timeout).2.2.2 rfl rfl rfl

/-- C9 (counterexample to the claim as stated): with host, user,
password and database set but `MYSQL_PORT` entirely missing from the
environment, `get_connection_manager` raises no configuration error — it
builds the manager with the default port 3306. -/
theorem get_connection_manager_port_not_required :
    (fun k =>
      if k = "MYSQL_HOST" then some "h"
      else if k = "MYSQL_USER" then some "u"
      else if k = "MYSQL_PASSWORD" then some "p"
      else if k = "MYSQL_DATABASE" then some "d"
      else (none : Option String)) "MYSQL_PORT" = none ∧
    get_connection_manager (fun k =>
      if k = "MYSQL_HOST" then some "h"
      else if k = "MYSQL_USER" then some "u"
      else if k = "MYSQL_PASSWORD" then some "p"
      else if k = "MYSQL_DATABASE" then some "d"
      else (none : Option String))
      = ConfigResult.ok ⟨"h", "u", "p", "d", 3306, "utf8mb4",
          "默认 MySQL 数据库"⟩ := by
  refine ⟨?_, ?_⟩ <;> decide

/-- C9 (amended): of the configuration fields only host, user, password
and database are required; if any of them is unset or empty when the
connection manager is first obtained (and the port string parses), a
`MySQLConnectionError` naming the first missing key is raised
immediately — the manager constructor makes no connection attempt, so
this precedes any connection attempt.  Port is not required: it defaults
to 3306. -/
theorem get_connection_manager_required_keys (env : String → Option String)
    (p : Int) (hport : pyIntParse (pyGetenvOr env "MYSQL_PORT" "3306") = some p) :
    (envMissing env "MYSQL_HOST" = true →
      get_connection_manager env = .connError (missingKeyMsg "host")) ∧
    (envMissing env "MYSQL_HOST" = false →
      envMissing env "MYSQL_USER" = true →
      get_connection_manager env = .connError (missingKeyMsg "user")) ∧
    (envMissing env "MYSQL_HOST" = false →
      envMissing env "MYSQL_USER" = false →
      envMissing env "MYSQL_PASSWORD" = true →
      get_connection_manager env = .connError (missingKeyMsg "password")) ∧
    (envMissing env "MYSQL_HOST" = false →
      envMissing env "MYSQL_USER" = false →
      envMissing env "MYSQL_PASSWORD" = false →
      envMissing env "MYSQL_DATABASE" = true →
      get_connection_manager env = .connError (missingKeyMsg "database")) := by
  refine ⟨?_, ?_, ?_, ?_⟩ <;> intros <;>
    simp [get_connection_manager, hport, *]

/-- Witness for `get_connection_manager_required_keys` at the empty
environment, where host is the first missing key. -/
theorem get_connection_manager_required_keys_witness :
    get_connection_manager (fun _ => (none : Option String))
      = .connError (missingKeyMsg "host") :=
  (get_connection_manager_required_keys (fun _ => (none : Option String)) 3306
    (by decide)).1 rfl
